import Mathlib

/-!
Shallow embedding of the X11 hook thread of JNativeHook
(src/native/unix/hook_thread.c, sync build with XRECORD_ASYNC undefined).

The embedding covers:
* the per-event capture callback `callback_proc`, with its process-wide
  mouse state (`click_count`, `click_time`, `mouse_dragged`) made explicit
  as a `MouseState` value threaded through the calls;
* the lifecycle entry point `start_native_thread`, modelled as a function
  of an environment describing which platform calls succeed, returning the
  resulting resource state together with the trace of X actions performed
  on the caller's own thread.

Helper routines that the file calls but that live outside this repository
snapshot (the X input helpers, the NativeErrors status codes, the wheel
codes header) are modelled from the specification and are marked as such
in their doc comments.
-/

set_option autoImplicit false

namespace JNativeHook

/-! ### X11 protocol constants (X.h) -/

/-- X11 protocol event type code of a key press. -/
def KeyPress : Nat := 2

/-- X11 protocol event type code of a key release. -/
def KeyRelease : Nat := 3

/-- X11 protocol event type code of a button press. -/
def ButtonPress : Nat := 4

/-- X11 protocol event type code of a button release. -/
def ButtonRelease : Nat := 5

/-- X11 protocol event type code of a pointer motion. -/
def MotionNotify : Nat := 6

/-- Modelled from the spec: XWheelCodes.h is not under src/; the spec
reserves button 4 as the scroll-wheel notch rotating up and away. -/
def WheelUp : Nat := 4

/-- Modelled from the spec: XWheelCodes.h is not under src/; the spec
reserves button 5 as the scroll-wheel notch rotating down and toward. -/
def WheelDown : Nat := 5

/-- Modelled from the spec: the managed runtime's scroll-type constant
WHEEL_UNIT_SCROLL used for every wheel event; its class is not under src/. -/
def WHEEL_UNIT_SCROLL : Nat := 0

/-- Modelled from the spec: NativeErrors.h is not under src/; the success
status returned by the lifecycle calls. -/
def RETURN_SUCCESS : Int := 0

/-- Modelled from the spec: NativeErrors.h is not under src/; the single
generic failure status returned by the lifecycle calls. -/
def RETURN_FAILURE : Int := 1

/-! ### Translator models

The translator functions live in XInputHelpers.c, which is not part of
this repository snapshot (only its declarations are); they are modelled
from the spec, which describes them as pure, stateless lookup functions. -/

/-- Modelled from the spec: the low-nibble part of the portable modifier
mask produced by the `NativeToJEventMask` translator — shift, ctrl, meta
and alt occupy bits 0–3.  The native X bits read are Shift (bit 0),
Control (bit 2), Mod4/meta (bit 6) and Mod1/alt (bit 3). -/
def modifierPart (m : Nat) : Nat :=
  (if m.testBit 0 then 1 else 0) + (if m.testBit 2 then 2 else 0) +
  (if m.testBit 6 then 4 else 0) + (if m.testBit 3 then 8 else 0)

/-- Modelled from the spec: the mouse-button part of the portable modifier
mask — the five button-down bits sit in an upper nibble starting at bit 4.
The native X bits read are Button1Mask–Button5Mask (bits 8–12). -/
def buttonPart (m : Nat) : Nat :=
  (if m.testBit 8 then 1 else 0) + (if m.testBit 9 then 2 else 0) +
  (if m.testBit 10 then 4 else 0) + (if m.testBit 11 then 8 else 0) +
  (if m.testBit 12 then 16 else 0)

/-- Modelled from the spec: `NativeToJEventMask` (XInputHelpers.c, not
under src/) is a bit-for-bit reinterpretation of the native modifier mask
into the portable mask: keyboard modifiers in the low nibble, the five
mouse-button-down bits in the bits from 4 up. -/
def NativeToJEventMask (m : Nat) : Nat :=
  modifierPart m + 16 * buttonPart m

/-- Modelled from the spec: `NativeToJButton` (XInputHelpers.c, not under
src/) maps native button ordinals to the closed portable enumeration
left / middle / right / extra; unmapped ordinals yield the undefined
sentinel 0. -/
def NativeToJButton (b : Nat) : Nat :=
  if b = 1 then 1
  else if b = 2 then 2
  else if b = 3 then 3
  else if b = 8 then 4
  else if b = 9 then 5
  else 0

/-- Virtual key datum returned by the key translator: portable keycode and
keyboard location. -/
structure JKeyDatum where
  keycode : Nat
  location : Nat
deriving DecidableEq, Repr

/-- Modelled from the spec: `KeyCodeToKeySym` (XInputHelpers.c, not under
src/) resolves a native keycode under the current modifier mask to a
keysym; modelled as a pairing of the keycode with the shift bit of the
mask.  No claim depends on the concrete table. -/
def KeyCodeToKeySym (keycode mask : Nat) : Nat :=
  keycode + 256 * (mask % 2)

/-- Modelled from the spec: `NativeToJKey` (XInputHelpers.c, not under
src/) maps a keysym through a fixed lookup table to a portable virtual
code and location.  No claim depends on the concrete table. -/
def NativeToJKey (keysym : Nat) : JKeyDatum :=
  { keycode := keysym, location := 0 }

/-- Modelled from the spec: `KeySymToUnicode` (XInputHelpers.c, not under
src/) returns the printable character a key produces, or 0 for
non-printable keys.  No claim depends on the concrete table. -/
def KeySymToUnicode (keysym : Nat) : Nat :=
  if keysym < 32 then 0 else keysym % 65536

/-! ### Raw and normalized events -/

/-- The fields of the XRecord datum read by the callback: event type,
detail byte (keycode or button code), modifier-state mask and the pointer
root coordinates.  The detail field is a BYTE and the state field a CARD16
on the wire; the callback truncates them accordingly. -/
structure XRecordDatum where
  type : Nat
  detail : Nat
  state : Nat
  rootX : Int
  rootY : Int
deriving DecidableEq, Repr

/-- The normalized events the callback hands to the event sink, with the
payloads the corresponding Java event constructors receive. -/
inductive NativeEvent where
  | keyPressed (time : Int) (mods : Nat) (rawcode : Nat) (keycode : Nat) (location : Nat)
  | keyTyped (time : Int) (mods : Nat) (rawcode : Nat) (keychar : Nat) (location : Nat)
  | keyReleased (time : Int) (mods : Nat) (rawcode : Nat) (keycode : Nat) (location : Nat)
  | mousePressed (time : Int) (mods : Nat) (x y : Int) (clicks : Nat) (button : Nat)
  | mouseReleased (time : Int) (mods : Nat) (x y : Int) (clicks : Nat) (button : Nat)
  | mouseClicked (time : Int) (mods : Nat) (x y : Int) (clicks : Nat) (button : Nat)
  | mouseMoved (time : Int) (mods : Nat) (x y : Int) (clicks : Nat)
  | mouseDragged (time : Int) (mods : Nat) (x y : Int) (clicks : Nat)
  | mouseWheel (time : Int) (mods : Nat) (x y : Int) (clicks : Nat)
      (scrollType : Nat) (scrollAmount : Nat) (rotation : Int)
deriving DecidableEq, Repr

/-- True exactly on MouseClicked events. -/
def isMouseClicked : NativeEvent → Bool
  | .mouseClicked _ _ _ _ _ _ => true
  | _ => false

/-- True exactly on MouseReleased events. -/
def isMouseReleased : NativeEvent → Bool
  | .mouseReleased _ _ _ _ _ _ => true
  | _ => false

/-- True exactly on MousePressed events. -/
def isMousePressed : NativeEvent → Bool
  | .mousePressed _ _ _ _ _ _ => true
  | _ => false

/-- True exactly on MouseWheel events. -/
def isMouseWheel : NativeEvent → Bool
  | .mouseWheel _ _ _ _ _ _ _ _ => true
  | _ => false

/-- The click-count payload of a wheel event. -/
def wheelClicks : NativeEvent → Option Nat
  | .mouseWheel _ _ _ _ c _ _ _ => some c
  | _ => none

/-! ### The mouse state of the callback -/

/-- The process-wide mouse globals of hook_thread.c: `click_count` is an
unsigned short (so it increments modulo 2^16), `click_time` a signed
64-bit millisecond timestamp, `mouse_dragged` the drag flag. -/
structure MouseState where
  click_count : Nat
  click_time : Int
  mouse_dragged : Bool
deriving DecidableEq, Repr

/-- The static initializers of the mouse globals. -/
def initialMouseState : MouseState :=
  { click_count := 0, click_time := 0, mouse_dragged := false }

/-- Shallow embedding of the data branch of `callback_proc`
(hook_thread.c lines 103–351): dispatch on the event type, track clicks
and the drag flag, and return the updated mouse state together with the
list of normalized events fired at the sink, in firing order.
`event_time` is the wall-clock millisecond timestamp the callback takes
on entry; `multi_click_time` is the platform's configured multi-click
interval as returned by `GetMultiClickTime`. -/
def callback_proc (multi_click_time : Int) (s : MouseState)
    (event_time : Int) (d : XRecordDatum) : MouseState × List NativeEvent :=
  let event_code : Nat := d.detail % 256
  let event_mask : Nat := d.state % 65536
  if d.type = KeyPress then
    let keysym := KeyCodeToKeySym event_code event_mask
    let jkey := NativeToJKey keysym
    let jmodifiers := NativeToJEventMask event_mask
    let pressed := NativeEvent.keyPressed event_time jmodifiers event_code jkey.keycode jkey.location
    let keytxt := KeySymToUnicode keysym
    if keytxt ≠ 0 then
      (s, [pressed, NativeEvent.keyTyped event_time jmodifiers event_code keytxt jkey.location])
    else
      (s, [pressed])
  else if d.type = KeyRelease then
    let keysym := KeyCodeToKeySym event_code event_mask
    let jkey := NativeToJKey keysym
    let jmodifiers := NativeToJEventMask event_mask
    (s, [NativeEvent.keyReleased event_time jmodifiers event_code jkey.keycode jkey.location])
  else if d.type = ButtonPress then
    let click_count :=
      if event_time - s.click_time ≤ multi_click_time then (s.click_count + 1) % 65536 else 1
    let s1 : MouseState := { s with click_count := click_count, click_time := event_time }
    let jmodifiers := NativeToJEventMask event_mask
    if 0 < event_code ∧ (event_code ≤ 3 ∨ event_code = 8 ∨ event_code = 9) then
      (s1, [NativeEvent.mousePressed event_time jmodifiers d.rootX d.rootY click_count
              (NativeToJButton event_code)])
    else if event_code = WheelUp ∨ event_code = WheelDown then
      let jwheelRotation : Int := if event_code = WheelUp then -1 else 1
      (s1, [NativeEvent.mouseWheel event_time jmodifiers d.rootX d.rootY click_count
              WHEEL_UNIT_SCROLL 3 jwheelRotation])
    else
      (s1, [])
  else if d.type = ButtonRelease then
    if 0 < event_code ∧ (event_code ≤ 3 ∨ event_code = 8 ∨ event_code = 9) then
      let jbutton := NativeToJButton event_code
      let jmodifiers := NativeToJEventMask event_mask
      let released := NativeEvent.mouseReleased event_time jmodifiers d.rootX d.rootY
            s.click_count jbutton
      if s.mouse_dragged ≠ true then
        (s, [released, NativeEvent.mouseClicked event_time jmodifiers d.rootX d.rootY
               s.click_count jbutton])
      else
        (s, [released])
    else
      (s, [])
  else if d.type = MotionNotify then
    let click_count :=
      if s.click_count ≠ 0 ∧ event_time - s.click_time > multi_click_time then 0 else s.click_count
    let jmodifiers := NativeToJEventMask event_mask
    let s1 : MouseState :=
      { s with click_count := click_count, mouse_dragged := decide (0 < jmodifiers >>> 4) }
    if 0 < jmodifiers >>> 4 then
      (s1, [NativeEvent.mouseDragged event_time jmodifiers d.rootX d.rootY click_count])
    else
      (s1, [NativeEvent.mouseMoved event_time jmodifiers d.rootX d.rootY click_count])
  else
    (s, [])

/-- Run the callback over a stream of timestamped raw events, collecting
the fired events in order. -/
def run_events (multi_click_time : Int) (s : MouseState) :
    List (Int × XRecordDatum) → MouseState × List NativeEvent
  | [] => (s, [])
  | (t, d) :: rest =>
    let st := callback_proc multi_click_time s t d
    let tail := run_events multi_click_time st.1 rest
    (tail.1, st.2 ++ tail.2)

/-! ### The hook lifecycle

`start_native_thread` (hook_thread.c lines 427–613) is embedded as a
function of an environment recording which platform calls succeed.  Its
result carries the final resource state, the returned status, the list of
X actions the function performs on the caller's own thread, and whether
the call returns at all: in the sync build the file's own comment on the
enable block states that `XRecordEnableContext` blocks until
`XRecordDisableContext` is called, and `stop_hook_thread` cannot run while
`start_native_thread` holds the control mutex, so an enable of a valid
context executed inside `start_native_thread` never returns. -/

/-- Outcome of one platform call attempted during setup. -/
structure XEnv where
  ctrl_ok : Bool
  data_ok : Bool
  record_ok : Bool
  range_ok : Bool
  createContext_ok : Bool
  thread_ok : Bool
  enable_ok : Bool
deriving DecidableEq, Repr

/-- The live resource state owned by the hook: the two display
connections, the XRecord context, whether the capture thread holds the
running mutex, and whether the input helper tables are loaded. -/
structure HookState where
  disp_ctrl_open : Bool
  disp_data_open : Bool
  context_valid : Bool
  thread_running : Bool
  helper_loaded : Bool
deriving DecidableEq, Repr

/-- The Idle state: nothing acquired, no capture thread. -/
def idleState : HookState :=
  { disp_ctrl_open := false, disp_data_open := false, context_valid := false,
    thread_running := false, helper_loaded := false }

/-- X actions performed on the caller's thread during `start_native_thread`,
in program order. -/
inductive XAction where
  | openDisplayCtrl
  | openDisplayData
  | queryVersion
  | allocRange
  | createContext
  | enableContext
  | createThread
  | joinThread
deriving DecidableEq, Repr

/-- Result of a `start_native_thread` call: whether the call returns at
all, the status it returns, the resource state it leaves behind, and the
trace of X actions executed on the caller's own thread. -/
structure StartResult where
  returns : Bool
  status : Int
  state : HookState
  trace : List XAction
deriving DecidableEq, Repr

/-- Shallow embedding of `thread_proc` (hook_thread.c lines 372–425, sync
build): the capture thread calls `XRecordEnableContext`; on success the
callback's start-of-data handler locks the running mutex (so
`is_hook_thread_running` becomes true) and the exit status becomes
RETURN_SUCCESS; on failure the status stays RETURN_FAILURE and the thread
exits after unlocking the control mutex. -/
def thread_proc (env : XEnv) (h : HookState) : Int × HookState :=
  if env.enable_ok then
    (RETURN_SUCCESS, { h with thread_running := true })
  else
    (RETURN_FAILURE, h)

/-- Shallow embedding of `is_hook_thread_running` (hook_thread.c lines
679–696): the trylock probe on the running mutex succeeds exactly when the
capture thread does not hold it. -/
def is_hook_thread_running (h : HookState) : Bool :=
  h.thread_running

/-- The tail of `start_native_thread` from line 553 on: `LoadInputHelper`
is called unconditionally, then a capture thread is spawned when the
context is valid and `pthread_create` succeeds; after the handshake wait
the status is RETURN_SUCCESS when the running mutex is held, otherwise the
joined thread's exit status; with no valid context or a failed spawn the
status stays RETURN_FAILURE. -/
def finish_start (env : XEnv) (h : HookState) (tr : List XAction) : StartResult :=
  let h1 : HookState := { h with helper_loaded := true }
  if h1.context_valid && env.thread_ok then
    let t := thread_proc env h1
    if is_hook_thread_running t.2 then
      { returns := true, status := RETURN_SUCCESS, state := t.2,
        trace := tr ++ [XAction.createThread] }
    else
      { returns := true, status := t.1, state := t.2,
        trace := tr ++ [XAction.createThread, XAction.joinThread] }
  else
    { returns := true, status := RETURN_FAILURE, state := h1, trace := tr }

/-- Shallow embedding of `start_native_thread` (hook_thread.c lines
427–613, sync build).  The already-running check at line 439 short-cuts
everything.  Otherwise the function opens the two displays (line 445–446),
queries the record extension (line 454), allocates the range (line 461),
creates the context (line 479), and then — lines 482–521, a duplicated
copy of the enable block of `thread_proc` — calls `XRecordEnableContext`
on the caller's own thread: with a valid context and a working server that
sync call blocks until a disable that nothing can issue, so the call never
returns; with an invalid context or a failing server it returns failure at
once and the function falls through to `finish_start`.  No failing path
closes an opened display or frees a created context. -/
def start_native_thread (env : XEnv) (h : HookState) : StartResult :=
  if is_hook_thread_running h then
    { returns := true, status := RETURN_FAILURE, state := h, trace := [] }
  else
    let h0 : HookState := { h with context_valid := false }
    let h1 : HookState := { h0 with disp_ctrl_open := env.ctrl_ok, disp_data_open := env.data_ok }
    let tr0 : List XAction := [XAction.openDisplayCtrl, XAction.openDisplayData]
    if env.ctrl_ok && env.data_ok then
      if env.record_ok then
        let tr1 := tr0 ++ [XAction.queryVersion]
        if env.range_ok then
          let h2 : HookState := { h1 with context_valid := env.createContext_ok }
          let tr2 := tr1 ++ [XAction.allocRange, XAction.createContext, XAction.enableContext]
          if env.createContext_ok && env.enable_ok then
            { returns := false, status := RETURN_FAILURE, state := h2, trace := tr2 }
          else
            finish_start env h2 tr2
        else
          finish_start env h1 (tr1 ++ [XAction.allocRange])
      else
        finish_start env h1 (tr0 ++ [XAction.queryVersion])
    else
      finish_start env h1 tr0

/-- Spec-side reading of a portable modifier mask: some mouse-button bit
of the upper nibble (bits 4–8, the five button-down bits) is set. -/
def hasButtonModifier (jm : Nat) : Bool :=
  jm.testBit 4 || jm.testBit 5 || jm.testBit 6 || jm.testBit 7 || jm.testBit 8

/-! ### Helper lemmas -/

theorem modifierPart_lt (m : Nat) : modifierPart m < 16 := by
  unfold modifierPart
  split <;> split <;> split <;> split <;> omega

theorem buttonPart_lt (m : Nat) : buttonPart m < 32 := by
  unfold buttonPart
  split <;> split <;> split <;> split <;> split <;> omega

/-- The right shift by four applied by the callback recovers exactly the
button part of the translated mask. -/
theorem nativeMask_shiftRight_four (m : Nat) :
    NativeToJEventMask m >>> 4 = buttonPart m := by
  have h1 := modifierPart_lt m
  unfold NativeToJEventMask
  rw [Nat.shiftRight_eq_div_pow]
  have h2 : (2 : Nat) ^ 4 = 16 := by norm_num
  rw [h2]
  omega

/-- The code's button test `jmodifiers >> 4 > 0` agrees with the spec-side
reading that some mouse-button bit of the upper nibble is set. -/
theorem hasButtonModifier_eq (m : Nat) :
    hasButtonModifier (NativeToJEventMask m)
      = decide (0 < NativeToJEventMask m >>> 4) := by
  have hs : NativeToJEventMask m >>> 4 = buttonPart m := nativeMask_shiftRight_four m
  have hb : buttonPart m < 32 := buttonPart_lt m
  unfold hasButtonModifier
  have h4 : (NativeToJEventMask m).testBit 4 = (buttonPart m).testBit 0 := by
    rw [← hs, Nat.testBit_shiftRight]
  have h5 : (NativeToJEventMask m).testBit 5 = (buttonPart m).testBit 1 := by
    rw [← hs, Nat.testBit_shiftRight]
  have h6 : (NativeToJEventMask m).testBit 6 = (buttonPart m).testBit 2 := by
    rw [← hs, Nat.testBit_shiftRight]
  have h7 : (NativeToJEventMask m).testBit 7 = (buttonPart m).testBit 3 := by
    rw [← hs, Nat.testBit_shiftRight]
  have h8 : (NativeToJEventMask m).testBit 8 = (buttonPart m).testBit 4 := by
    rw [← hs, Nat.testBit_shiftRight]
  rw [h4, h5, h6, h7, h8, hs]
  revert hb
  generalize buttonPart m = b
  revert b
  decide

/-- A button press updates the mouse state exactly by the click-tracking
step of lines 175–182: the count increments (modulo the unsigned-short
width) inside the multi-click interval and resets to 1 outside it, and the
click time is recorded, whichever dispatch branch the button code takes. -/
theorem press_updates_state (mct : Int) (s : MouseState) (t : Int) (d : XRecordDatum)
    (h : d.type = ButtonPress) :
    (callback_proc mct s t d).1
      = { s with
          click_count := if t - s.click_time ≤ mct then (s.click_count + 1) % 65536 else 1,
          click_time := t } := by
  simp only [callback_proc, h, MotionNotify, KeyPress, KeyRelease, ButtonPress, ButtonRelease]
  norm_num
  split
  · rfl
  · split <;> rfl

/-- No branch of the callback other than the motion branch writes the
drag flag. -/
theorem callback_preserves_dragged (mct : Int) (s : MouseState) (t : Int) (d : XRecordDatum)
    (h : d.type ≠ MotionNotify) :
    (callback_proc mct s t d).1.mouse_dragged = s.mouse_dragged := by
  simp only [callback_proc]
  split_ifs <;> simp_all

/-- The motion branch overwrites the drag flag with the button test on the
freshly translated mask. -/
theorem motion_sets_dragged (mct : Int) (s : MouseState) (t : Int) (m : XRecordDatum)
    (h : m.type = MotionNotify) :
    (callback_proc mct s t m).1.mouse_dragged
      = hasButtonModifier (NativeToJEventMask (m.state % 65536)) := by
  have hjm := hasButtonModifier_eq (m.state % 65536)
  by_cases hc : 0 < NativeToJEventMask (m.state % 65536) >>> 4 <;>
    simp [callback_proc, h, MotionNotify, KeyPress, KeyRelease, ButtonPress, ButtonRelease,
      hc, hjm]

/-- Running a concatenated stream runs the second part from the state the
first part reaches, concatenating the fired events. -/
theorem run_events_append (mct : Int) (s : MouseState) (a b : List (Int × XRecordDatum)) :
    run_events mct s (a ++ b)
      = ((run_events mct (run_events mct s a).1 b).1,
         (run_events mct s a).2 ++ (run_events mct (run_events mct s a).1 b).2) := by
  induction a generalizing s with
  | nil => simp [run_events]
  | cons e rest ih =>
    cases e with
    | mk te de => simp [run_events, ih, List.append_assoc]

/-- The drag flag is invariant across any stretch of the stream that
contains no motion event. -/
theorem run_events_dragged_invariant (mct : Int) (s : MouseState)
    (evs : List (Int × XRecordDatum))
    (h : ∀ e ∈ evs, (Prod.snd e).type ≠ MotionNotify) :
    (run_events mct s evs).1.mouse_dragged = s.mouse_dragged := by
  induction evs generalizing s with
  | nil => simp [run_events]
  | cons e rest ih =>
    cases e with
    | mk te de =>
      simp only [run_events]
      rw [ih _ (fun x hx => h x (List.mem_cons_of_mem _ hx))]
      exact callback_preserves_dragged mct s te de (h (te, de) (List.mem_cons_self _ _))

/-! ### Claim theorems -/

/-- Claim C1: the click counter behaves as specified.  A press at time t
with `t - click_time ≤ multi_click_time` increments `click_count` (an
unsigned short, so modulo 2^16); a later press resets it to 1;
`click_time` is set to the press time on every press; a motion event with
nonzero `click_count` arriving after more than the interval resets
`click_count` to 0 (and otherwise leaves it unchanged); three presses
within a 200 ms interval yield counts 1, 2, 3 and a fourth press after the
interval yields 1. -/
theorem click_counting (mct : Int) (s : MouseState) (t : Int) (dP dM : XRecordDatum)
    (hP : dP.type = ButtonPress) (hM : dM.type = MotionNotify) :
    ((callback_proc mct s t dP).1.click_count
        = if t - s.click_time ≤ mct then (s.click_count + 1) % 65536 else 1)
    ∧ (callback_proc mct s t dP).1.click_time = t
    ∧ ((callback_proc mct s t dM).1.click_count
        = if s.click_count ≠ 0 ∧ t - s.click_time > mct then 0 else s.click_count)
    ∧ (run_events 200 initialMouseState
        [(1000, ⟨ButtonPress, 1, 0, 0, 0⟩), (1100, ⟨ButtonPress, 1, 0, 0, 0⟩),
         (1200, ⟨ButtonPress, 1, 0, 0, 0⟩), (2000, ⟨ButtonPress, 1, 0, 0, 0⟩)]).2
        = [NativeEvent.mousePressed 1000 0 0 0 1 1, NativeEvent.mousePressed 1100 0 0 0 2 1,
           NativeEvent.mousePressed 1200 0 0 0 3 1, NativeEvent.mousePressed 2000 0 0 0 1 1] := by
  refine ⟨?_, ?_, ?_, by decide⟩
  · rw [press_updates_state mct s t dP hP]
  · rw [press_updates_state mct s t dP hP]
  · by_cases hc : 0 < NativeToJEventMask (dM.state % 65536) >>> 4 <;>
      simp [callback_proc, hM, MotionNotify, KeyPress, KeyRelease, ButtonPress, ButtonRelease, hc]

/-- Witness for C1: a press at time 2000 with a stale click sequence
(count 3 recorded at time 1000, interval 200) resets the count to 1 and
records the time; a motion at the same distance resets the count to 0. -/
theorem click_counting_witness :
    (⟨ButtonPress, 1, 0, 0, 0⟩ : XRecordDatum).type = ButtonPress
    ∧ (callback_proc 200 ⟨3, 1000, false⟩ 2000 ⟨ButtonPress, 1, 0, 0, 0⟩).1.click_count = 1
    ∧ (callback_proc 200 ⟨3, 1000, false⟩ 2000 ⟨ButtonPress, 1, 0, 0, 0⟩).1.click_time = 2000
    ∧ (callback_proc 200 ⟨3, 1000, false⟩ 2000 ⟨MotionNotify, 0, 0, 0, 0⟩).1.click_count = 0 := by
  have h := click_counting 200 ⟨3, 1000, false⟩ 2000 ⟨ButtonPress, 1, 0, 0, 0⟩
      ⟨MotionNotify, 0, 0, 0, 0⟩ rfl rfl
  exact ⟨rfl, by rw [h.1]; decide, h.2.1, by rw [h.2.2.1]; decide⟩

/-- Claim C2 counterexample: press, drag, release, press again, release
with no motion at all between the second press and its release.  The
claim requires the second release (no drag since its press) to emit a
MouseClicked; the code consults the `mouse_dragged` flag still set by the
old drag, so the whole stream contains no MouseClicked at all, only the
two MouseReleased events. -/
theorem release_after_undragged_press_no_click :
    ((run_events 200 initialMouseState
      [(0, ⟨ButtonPress, 1, 256, 0, 0⟩), (1, ⟨MotionNotify, 0, 256, 0, 0⟩),
       (2, ⟨ButtonRelease, 1, 0, 0, 0⟩), (3, ⟨ButtonPress, 1, 0, 0, 0⟩),
       (4, ⟨ButtonRelease, 1, 0, 0, 0⟩)]).2.countP isMouseClicked) = 0
    ∧ ((run_events 200 initialMouseState
      [(0, ⟨ButtonPress, 1, 256, 0, 0⟩), (1, ⟨MotionNotify, 0, 256, 0, 0⟩),
       (2, ⟨ButtonRelease, 1, 0, 0, 0⟩), (3, ⟨ButtonPress, 1, 0, 0, 0⟩),
       (4, ⟨ButtonRelease, 1, 0, 0, 0⟩)]).2.countP isMouseReleased) = 2 := by
  decide

/-- Claim C2 as amended: an ordinary button release emits MouseClicked
alongside MouseReleased exactly when the `mouse_dragged` flag is false at
the release — the flag records the classification of the most recent
motion event anywhere in the stream (initially false) and is not reset by
press or release handling, so a drag before the press also suppresses the
click. -/
theorem release_click_iff_not_dragged (mct : Int) (s : MouseState) (t : Int) (d : XRecordDatum)
    (h : d.type = ButtonRelease)
    (hc : 0 < d.detail % 256 ∧ (d.detail % 256 ≤ 3 ∨ d.detail % 256 = 8 ∨ d.detail % 256 = 9)) :
    ((callback_proc mct s t d).2.any isMouseClicked = true ↔ s.mouse_dragged = false)
    ∧ (callback_proc mct s t d).2.any isMouseReleased = true
    ∧ (callback_proc mct s t d).1 = s := by
  by_cases hd : s.mouse_dragged <;>
    simp [callback_proc, h, MotionNotify, KeyPress, KeyRelease, ButtonPress, ButtonRelease,
      hc, hd, isMouseClicked, isMouseReleased]

/-- Witness for the amended C2: a release of button 1 with the drag flag
set emits no MouseClicked, does emit MouseReleased, and leaves the state
untouched. -/
theorem release_click_iff_not_dragged_witness :
    ((callback_proc 200 ⟨1, 0, true⟩ 50 ⟨ButtonRelease, 1, 0, 0, 0⟩).2.any isMouseClicked = true
        ↔ (⟨1, 0, true⟩ : MouseState).mouse_dragged = false)
    ∧ (callback_proc 200 ⟨1, 0, true⟩ 50 ⟨ButtonRelease, 1, 0, 0, 0⟩).2.any isMouseReleased = true
    ∧ (callback_proc 200 ⟨1, 0, true⟩ 50 ⟨ButtonRelease, 1, 0, 0, 0⟩).1 = ⟨1, 0, true⟩ :=
  release_click_iff_not_dragged 200 ⟨1, 0, true⟩ 50 ⟨ButtonRelease, 1, 0, 0, 0⟩ rfl (by decide)

/-- Claim C3: a motion event is emitted as MouseDragged exactly when some
mouse-button bit of the upper nibble of the translated modifier mask is
set and as MouseMoved otherwise, and the drag flag is set to exactly that
condition. -/
theorem motion_drag_classification (mct : Int) (s : MouseState) (t : Int) (d : XRecordDatum)
    (h : d.type = MotionNotify) :
    (callback_proc mct s t d).1.mouse_dragged
        = hasButtonModifier (NativeToJEventMask (d.state % 65536))
    ∧ (callback_proc mct s t d).2
        = [(if hasButtonModifier (NativeToJEventMask (d.state % 65536)) = true then
              NativeEvent.mouseDragged
            else NativeEvent.mouseMoved)
            t (NativeToJEventMask (d.state % 65536)) d.rootX d.rootY
            (callback_proc mct s t d).1.click_count] := by
  have hjm := hasButtonModifier_eq (d.state % 65536)
  by_cases hc : 0 < NativeToJEventMask (d.state % 65536) >>> 4 <;>
    simp [callback_proc, h, MotionNotify, KeyPress, KeyRelease, ButtonPress, ButtonRelease,
      hc, hjm]

/-- Witness for C3: a motion with Button1Mask (native bit 8) held
translates to portable mask 16, is emitted as MouseDragged and sets the
flag; the flag was false before. -/
theorem motion_drag_classification_witness :
    (callback_proc 200 initialMouseState 7 ⟨MotionNotify, 0, 256, 3, 4⟩).1.mouse_dragged = true
    ∧ (callback_proc 200 initialMouseState 7 ⟨MotionNotify, 0, 256, 3, 4⟩).2
        = [NativeEvent.mouseDragged 7 16 3 4 0] := by
  have h := motion_drag_classification 200 initialMouseState 7 ⟨MotionNotify, 0, 256, 3, 4⟩ rfl
  exact ⟨by rw [h.1]; decide, by rw [h.2]; decide⟩

/-- Claim C7: a wheel-notch press is emitted as a MouseWheel event whose
rotation is -1 for the up/away code and +1 for the down/toward code, with
the fixed scroll type WHEEL_UNIT_SCROLL and the fixed scroll amount 3. -/
theorem wheel_rotation (mct : Int) (s : MouseState) (t : Int) (d : XRecordDatum)
    (h : d.type = ButtonPress)
    (hw : d.detail % 256 = WheelUp ∨ d.detail % 256 = WheelDown) :
    (callback_proc mct s t d).2
      = [NativeEvent.mouseWheel t (NativeToJEventMask (d.state % 65536)) d.rootX d.rootY
           (callback_proc mct s t d).1.click_count WHEEL_UNIT_SCROLL 3
           (if d.detail % 256 = WheelUp then -1 else 1)] := by
  rcases hw with hw | hw <;>
    simp [callback_proc, h, hw, MotionNotify, KeyPress, KeyRelease, ButtonPress, ButtonRelease,
      WheelUp, WheelDown]

/-- Witness for C7: pressing the wheel-up notch (button 4) at time 9 fires
one MouseWheel event with rotation -1, scroll type WHEEL_UNIT_SCROLL and
scroll amount 3. -/
theorem wheel_rotation_witness :
    (callback_proc 200 initialMouseState 9 ⟨ButtonPress, 4, 0, 1, 2⟩).2
      = [NativeEvent.mouseWheel 9 0 1 2 1 WHEEL_UNIT_SCROLL 3 (-1)] := by
  have h := wheel_rotation 200 initialMouseState 9 ⟨ButtonPress, 4, 0, 1, 2⟩ rfl (Or.inl rfl)
  rw [h]; decide

/-- Claim C8: a wheel-notch press (button 4 or 5) fires exactly one event
and it is a MouseWheel — never an ordinary MousePressed — and a
wheel-notch release fires no event at all. -/
theorem wheel_notch_never_ordinary (mct : Int) (s : MouseState) (t : Int) (dP dR : XRecordDatum)
    (hP : dP.type = ButtonPress)
    (hwP : dP.detail % 256 = WheelUp ∨ dP.detail % 256 = WheelDown)
    (hR : dR.type = ButtonRelease)
    (hwR : dR.detail % 256 = WheelUp ∨ dR.detail % 256 = WheelDown) :
    (callback_proc mct s t dP).2.all isMouseWheel = true
    ∧ (callback_proc mct s t dP).2.length = 1
    ∧ (callback_proc mct s t dR).2 = [] := by
  rcases hwP with hwP | hwP <;> rcases hwR with hwR | hwR <;>
    simp [callback_proc, hP, hR, hwP, hwR, MotionNotify, KeyPress, KeyRelease, ButtonPress,
      ButtonRelease, WheelUp, WheelDown, isMouseWheel]

/-- Witness for C8: a press of button 4 fires exactly one event, a
MouseWheel; a release of button 5 fires nothing. -/
theorem wheel_notch_never_ordinary_witness :
    (callback_proc 200 initialMouseState 9 ⟨ButtonPress, 4, 0, 0, 0⟩).2.all isMouseWheel = true
    ∧ (callback_proc 200 initialMouseState 9 ⟨ButtonPress, 4, 0, 0, 0⟩).2.length = 1
    ∧ (callback_proc 200 initialMouseState 9 ⟨ButtonRelease, 5, 0, 0, 0⟩).2 = [] :=
  wheel_notch_never_ordinary 200 initialMouseState 9 ⟨ButtonPress, 4, 0, 0, 0⟩
    ⟨ButtonRelease, 5, 0, 0, 0⟩ rfl (Or.inl rfl) rfl (Or.inr rfl)

/-- Claim C9: a wheel-notch press passes through the same click-tracking
step as any other press — the count increments (modulo the
unsigned-short width) within the interval and resets to 1 outside it, the
click time is recorded — and the fired MouseWheel event carries the
resulting count in its click payload. -/
theorem wheel_press_counts_clicks (mct : Int) (s : MouseState) (t : Int) (d : XRecordDatum)
    (h : d.type = ButtonPress)
    (hw : d.detail % 256 = WheelUp ∨ d.detail % 256 = WheelDown) :
    (callback_proc mct s t d).1.click_count
        = (if t - s.click_time ≤ mct then (s.click_count + 1) % 65536 else 1)
    ∧ (callback_proc mct s t d).1.click_time = t
    ∧ (callback_proc mct s t d).2.map wheelClicks
        = [some ((callback_proc mct s t d).1.click_count)] := by
  refine ⟨?_, ?_, ?_⟩
  · rw [press_updates_state mct s t d h]
  · rw [press_updates_state mct s t d h]
  · rcases hw with hw | hw <;>
      simp [callback_proc, h, hw, MotionNotify, KeyPress, KeyRelease, ButtonPress, ButtonRelease,
        WheelUp, WheelDown, wheelClicks]

/-- Witness for C9: a wheel-down press at time 100, 100 ms after a
two-click sequence, increments the count to 3, records time 100, and the
MouseWheel event carries click count 3. -/
theorem wheel_press_counts_clicks_witness :
    (callback_proc 200 ⟨2, 0, false⟩ 100 ⟨ButtonPress, 5, 0, 0, 0⟩).1.click_count = 3
    ∧ (callback_proc 200 ⟨2, 0, false⟩ 100 ⟨ButtonPress, 5, 0, 0, 0⟩).1.click_time = 100
    ∧ (callback_proc 200 ⟨2, 0, false⟩ 100 ⟨ButtonPress, 5, 0, 0, 0⟩).2.map wheelClicks
        = [some 3] := by
  have h := wheel_press_counts_clicks 200 ⟨2, 0, false⟩ 100 ⟨ButtonPress, 5, 0, 0, 0⟩
      rfl (Or.inr rfl)
  exact ⟨by rw [h.1]; decide, h.2.1, by rw [h.2.2, h.1]; decide⟩

/-- Claim C10: the drag flag is written only by motion handling — any
non-motion event preserves it, any motion-free stretch of the stream
leaves it invariant, and after a stream whose last motion event is m the
flag equals the drag classification of m, regardless of which presses or
releases follow. -/
theorem dragging_flag_single_writer (mct : Int) (s : MouseState) (t tm : Int)
    (d m : XRecordDatum) (evs pre post : List (Int × XRecordDatum))
    (hd : d.type ≠ MotionNotify)
    (hevs : ∀ e ∈ evs, (Prod.snd e).type ≠ MotionNotify)
    (hm : m.type = MotionNotify)
    (hpost : ∀ e ∈ post, (Prod.snd e).type ≠ MotionNotify) :
    (callback_proc mct s t d).1.mouse_dragged = s.mouse_dragged
    ∧ (run_events mct s evs).1.mouse_dragged = s.mouse_dragged
    ∧ (run_events mct s (pre ++ (tm, m) :: post)).1.mouse_dragged
        = hasButtonModifier (NativeToJEventMask (m.state % 65536)) := by
  refine ⟨callback_preserves_dragged mct s t d hd,
    run_events_dragged_invariant mct s evs hevs, ?_⟩
  rw [run_events_append]
  simp only [run_events]
  rw [run_events_dragged_invariant mct _ post hpost]
  exact motion_sets_dragged mct _ tm m hm

/-- Witness for C10: a press leaves the flag false; a motion-free
press/release stream leaves it false; a stream whose last motion is a
drag (button 1 held) leaves it true across the following release. -/
theorem dragging_flag_single_writer_witness :
    (callback_proc 200 initialMouseState 1 ⟨ButtonPress, 1, 0, 0, 0⟩).1.mouse_dragged = false
    ∧ (run_events 200 initialMouseState
        [(1, ⟨ButtonPress, 1, 0, 0, 0⟩), (2, ⟨ButtonRelease, 1, 0, 0, 0⟩)]).1.mouse_dragged = false
    ∧ (run_events 200 initialMouseState
        [(0, ⟨ButtonPress, 1, 256, 0, 0⟩), (1, ⟨MotionNotify, 0, 256, 0, 0⟩),
         (2, ⟨ButtonRelease, 1, 0, 0, 0⟩)]).1.mouse_dragged = true := by
  have h := dragging_flag_single_writer 200 initialMouseState 1 1
      ⟨ButtonPress, 1, 0, 0, 0⟩ ⟨MotionNotify, 0, 256, 0, 0⟩
      [(1, ⟨ButtonPress, 1, 0, 0, 0⟩), (2, ⟨ButtonRelease, 1, 0, 0, 0⟩)]
      [(0, ⟨ButtonPress, 1, 256, 0, 0⟩)] [(2, ⟨ButtonRelease, 1, 0, 0, 0⟩)]
      (by decide) (by decide) rfl (by decide)
  have h3 := h.2.2
  simp only [List.singleton_append] at h3
  exact ⟨h.1, h.2.1, by rw [h3]; decide⟩

/-- Claim C4: evaluated in the environment where every platform call
succeeds, `start_native_thread` itself executes the blocking
enable-context call on the caller's thread — the duplicated enable block
at lines 482–521 runs before `pthread_create` — and consequently the call
never returns there instead of waiting on the handshake lock. -/
theorem enable_runs_on_caller_thread :
    XAction.enableContext
        ∈ (start_native_thread ⟨true, true, true, true, true, true, true⟩ idleState).trace
    ∧ (start_native_thread ⟨true, true, true, true, true, true, true⟩ idleState).returns
        = false := by
  decide

/-- Claim C5: with both displays opening and the record extension
unavailable, `start_native_thread` returns the generic failure and no
capture thread runs, but both opened display connections are left open —
no failing path closes them. -/
theorem ext_unavailable_leaks_displays :
    (start_native_thread ⟨true, true, false, true, true, true, true⟩ idleState).status
        = RETURN_FAILURE
    ∧ (start_native_thread ⟨true, true, false, true, true, true, true⟩
        idleState).state.disp_ctrl_open = true
    ∧ (start_native_thread ⟨true, true, false, true, true, true, true⟩
        idleState).state.disp_data_open = true
    ∧ is_hook_thread_running
        (start_native_thread ⟨true, true, false, true, true, true, true⟩ idleState).state = false
    ∧ (start_native_thread ⟨true, true, false, true, true, true, true⟩ idleState).returns
        = true := by
  decide

/-- Claim C6 counterexample: the status returned by a second start while
the hook runs is RETURN_FAILURE — the very value returned for a genuine
setup error such as extension-unavailable — so the call does not report a
distinct non-error "already running" outcome. -/
theorem already_running_status_is_error_status :
    (start_native_thread ⟨true, true, true, true, true, true, true⟩
        ⟨true, true, true, true, true⟩).status = RETURN_FAILURE
    ∧ (start_native_thread ⟨true, true, false, true, true, true, true⟩ idleState).status
        = RETURN_FAILURE := by
  decide

/-- Claim C6 as amended: calling start while the capture thread holds the
running mutex is a pure no-op — no display is opened, no context created,
no thread spawned, the state is returned unchanged — but the status
reported is the generic RETURN_FAILURE, not a distinct "already running"
outcome. -/
theorem start_while_running_noop (env : XEnv) (h : HookState)
    (hr : h.thread_running = true) :
    start_native_thread env h
      = { returns := true, status := RETURN_FAILURE, state := h, trace := [] } := by
  simp [start_native_thread, is_hook_thread_running, hr]

/-- Witness for the amended C6: a second start in the all-running state
with an all-successful environment changes nothing and returns the
generic failure status. -/
theorem start_while_running_noop_witness :
    (⟨true, true, true, true, true⟩ : HookState).thread_running = true
    ∧ start_native_thread ⟨true, true, true, true, true, true, true⟩
        ⟨true, true, true, true, true⟩
      = { returns := true, status := RETURN_FAILURE,
          state := ⟨true, true, true, true, true⟩, trace := [] } :=
  ⟨rfl, start_while_running_noop ⟨true, true, true, true, true, true, true⟩
    ⟨true, true, true, true, true⟩ rfl⟩

end JNativeHook
